import Mathlib

/-!
Verification of the NMEA logger filtering core (`src/main.rs`).

The development shallowly embeds the parts of the program the claims are
about:

* `Regex` / `Spans` / `isMatch` — a model of the `regex` crate's pattern
  language as used here (alternation, grouping, `.`, `*`, the `^` and `$`
  anchors, literal characters) with unanchored-search semantics: `is_match`
  holds when some span of the haystack is matched, anchors refer to absolute
  haystack positions, and `.` does not match a newline.
* `create_regex` — `NMEAFile::create_regex`, modelled at the syntax-tree
  level: concatenating parenthesised patterns with `|` parses to the
  alternation of the grouped patterns, and the empty pattern string parses
  to the empty regex.
* Timestamps are seconds since the Unix epoch (`Nat`); `chrono`'s
  `DateTime<Utc>` comparison is the numeric order of the instant, its
  `date_naive`/`time` decomposition is division/remainder by 86400, and
  calendar dates are converted with the standard civil-from-days algorithm
  (`daysFromCivil`, valid for dates from 1970 on, which covers every date
  the program's constants and scenarios use).
* `NMEAFile`, `update_time_only`, `process_line`, `emitLines`, `runOutput`
  — the engine state and per-line processing.  The compiled include/exclude
  matchers are embedded as boolean predicates on strings (`String → Bool`),
  the shape in which the Rust code consumes them via `Regex::is_match`;
  lemmas tie the default matchers to `create_regex` of the default pattern
  lists.  The external `libnmea0183` parser is a parameter
  (`String → Option NmeaBase` plus `classify`); `process_line` returns the
  new state and the optionally emitted line instead of printing it.
-/

/-! ## Regex model -/

/-- Syntax of the regular expressions in play: the `regex` crate's
alternation `|`, grouping `( )`, any-char `.` (which does not match a
newline unless the `s` flag is set), Kleene star, the anchors `^` and `$`
(absolute text positions, multi-line mode off), literal characters,
and the empty pattern. -/
inductive Regex where
  | eps
  | char (c : Char)
  | dot
  | anchorStart
  | anchorEnd
  | cat (r₁ r₂ : Regex)
  | alt (r₁ r₂ : Regex)
  | star (r : Regex)
  | group (r : Regex)
  deriving DecidableEq, Repr

/-- `Spans s r i j`: regex `r` matches the span `[i, j)` of the haystack
`s`.  Anchors constrain absolute positions of the haystack, matching the
`regex` crate with multi-line mode off. -/
inductive Spans (s : List Char) : Regex → Nat → Nat → Prop where
  | eps (i : Nat) : Spans s .eps i i
  | char (i : Nat) (c : Char) (h : s.get? i = some c) : Spans s (.char c) i (i + 1)
  | dot (i : Nat) (c : Char) (h : s.get? i = some c) (hn : c ≠ '\n') :
      Spans s .dot i (i + 1)
  | anchorStart : Spans s .anchorStart 0 0
  | anchorEnd : Spans s .anchorEnd s.length s.length
  | cat (i k j : Nat) (r₁ r₂ : Regex) (h₁ : Spans s r₁ i k) (h₂ : Spans s r₂ k j) :
      Spans s (.cat r₁ r₂) i j
  | altL (i j : Nat) (r₁ r₂ : Regex) (h : Spans s r₁ i j) : Spans s (.alt r₁ r₂) i j
  | altR (i j : Nat) (r₁ r₂ : Regex) (h : Spans s r₂ i j) : Spans s (.alt r₁ r₂) i j
  | starNil (i : Nat) (r : Regex) : Spans s (.star r) i i
  | starCons (i k j : Nat) (r : Regex) (h₁ : Spans s r i k) (h₂ : Spans s (.star r) k j) :
      Spans s (.star r) i j
  | group (i j : Nat) (r : Regex) (h : Spans s r i j) : Spans s (.group r) i j

/-- `Regex::is_match`: unanchored search — the pattern matches somewhere in
the haystack. -/
def isMatch (r : Regex) (s : String) : Prop :=
  ∃ i j, Spans s.data r i j

/-- `NMEAFile::create_regex`.  The Rust function builds the pattern string
`"(p₁)|(p₂)|…"` by concatenation (empty when the list is empty, and the
empty pattern compiles to the empty regex) and compiles it; at the
syntax-tree level that string parses to the left-nested alternation of the
parenthesised patterns.  `None` compiles the empty pattern `""`. -/
def create_regex : Option (List Regex) → Regex
  | none => .eps
  | some [] => .eps
  | some (p :: ps) => (ps.map Regex.group).foldl Regex.alt (Regex.group p)

/-- The axis selection in `NMEAFile::new`: a configured list (even an empty
one) is compiled as given; an unconfigured axis falls back to the default
list before compiling. -/
def axisMatcher (configured : Option (List Regex)) (dflt : List Regex) : Regex :=
  create_regex (if configured.isSome then configured else some dflt)

/-- The default include pattern list `[".*"]` of `NMEAFile::new`. -/
def includeDefault : List Regex := [.star .dot]

/-- The default exclude pattern list `["^$"]` of `NMEAFile::new`. -/
def excludeDefault : List Regex := [.cat .anchorStart .anchorEnd]

/-! ## Timestamps and calendar -/

/-- Days since 1970-01-01 of the proleptic-Gregorian civil date `y-m-d`
(the standard civil-from-days algorithm), valid for dates from 1970-01-01
on, which covers every date the program's constants and scenarios use. -/
def daysFromCivil (y m d : Nat) : Nat :=
  let y' := if m ≤ 2 then y - 1 else y
  let era := y' / 400
  let yoe := y' - era * 400
  let mp := (m + 9) % 12
  let doy := (153 * mp + 2) / 5 + d - 1
  let doe := yoe * 365 + yoe / 4 - yoe / 100 + doy
  era * 146097 + doe - 719468

/-- Seconds since the Unix epoch of `y-m-d h:mi:s` UTC. -/
def utcSeconds (y m d h mi s : Nat) : Nat :=
  86400 * daysFromCivil y m d + 3600 * h + 60 * mi + s

/-- `NMEAFile::new`'s default `start_timestamp`, `2000-01-01T00:00:00Z`. -/
def defaultStart : Nat := utcSeconds 2000 1 1 0 0 0

/-- `NMEAFile::new`'s default `end_timestamp`, `2050-12-31T23:59:59Z`. -/
def defaultEnd : Nat := utcSeconds 2050 12 31 23 59 59

/-! ## Sentences and the engine state -/

/-- The part of `libnmea0183::base::Nmea0183Base` the engine reads: the
sender (device code) and message-type strings. -/
structure NmeaBase where
  sender : String
  message : String
  deriving DecidableEq, Repr

/-- The result of `libnmea0183::classify` as consumed by
`NMEAFile::process_line`: each timestamp-bearing variant is paired with the
timestamp its `timestamp()` accessor yields (the engine `expect`s it to be
present — the contract the external parser must honour).  Time-of-day
values are seconds within the day (`NaiveTime`); full timestamps are
seconds since the Unix epoch (`DateTime<Utc>`). -/
inductive Nmea0183 where
  | BWC (t : Nat)
  | BWR (t : Nat)
  | GBS (t : Nat)
  | GGA (t : Nat)
  | GLL (t : Nat)
  | GRS (t : Nat)
  | GST (t : Nat)
  | GXA (t : Nat)
  | RMC (ts : Nat)
  | TRF (t : Nat)
  | ZDA (ts : Nat)
  | other
  deriving DecidableEq, Repr

/-- The fields of `struct NMEAFile` the filtering logic reads: the window
bounds, the four compiled matchers (embedded as the boolean string
predicates the code consumes via `Regex::is_match`), and the rolling clock.
The input stream, the progress-count flag, and the two loop-termination
flags live in the stream loop, which is modelled by running `process_line`
over a finite list of lines (the `terminate_eof = true` behaviour). -/
structure NMEAFile where
  start_timestamp : Nat
  end_timestamp : Nat
  include_devices : String → Bool
  exclude_devices : String → Bool
  include_messages : String → Bool
  exclude_messages : String → Bool
  most_recent_timestamp : Nat

/-- `NMEAFile::update_time_only`: split the clock into its date and
time-of-day, advance the date by one day when the held time-of-day is
strictly greater than the new one, and recombine with the new time-of-day.
(`date_naive`/`time` on a nonnegative `DateTime<Utc>` are division and
remainder by 86400; `checked_add_days(1)` never fails at these
magnitudes.) -/
def update_time_only (mrt t : Nat) : Nat :=
  let current_date := mrt / 86400
  let current_time := mrt % 86400
  let current_date := if current_time > t then current_date + 1 else current_date
  current_date * 86400 + t

/-- The clock transition of the `match libnmea0183::classify(...)` arms in
`NMEAFile::process_line`: the eight time-of-day variants and `TRF` go
through `update_time_only`, `RMC` and `ZDA` overwrite the clock with their
full timestamp, and every other variant leaves it unchanged. -/
def clockStep (c : Nmea0183) (mrt : Nat) : Nat :=
  match c with
  | .BWC t => update_time_only mrt t
  | .BWR t => update_time_only mrt t
  | .GBS t => update_time_only mrt t
  | .GGA t => update_time_only mrt t
  | .GLL t => update_time_only mrt t
  | .GRS t => update_time_only mrt t
  | .GST t => update_time_only mrt t
  | .GXA t => update_time_only mrt t
  | .RMC ts => ts
  | .TRF t => update_time_only mrt t
  | .ZDA ts => ts
  | .other => mrt

/-- The newline stripping at the top of `NMEAFile::process_line`:
`buffer.pop()` removes the last character, which is pushed back unless it
was `'\n'` — i.e. exactly one trailing newline is removed when present. -/
def stripNewline (b : String) : String :=
  if b.data.getLast? = some '\n' then ⟨b.data.dropLast⟩ else b

/-- The four include/exclude tests of `NMEAFile::process_line`, in the
source's order: include-messages, not exclude-messages, include-devices,
not exclude-devices. -/
def filtersPass (s : NMEAFile) (nb : NmeaBase) : Bool :=
  s.include_messages nb.message && !s.exclude_messages nb.message &&
    s.include_devices nb.sender && !s.exclude_devices nb.sender

/-- `NMEAFile::process_line`, parameterised by the external parser
(`Nmea0183Base::from_string`, as an `Option`-returning function) and
classifier (`libnmea0183::classify`).  Returns the state after the call and
the line printed to stdout by the final `println!`, if any. -/
def process_line (parse : String → Option NmeaBase) (classify : NmeaBase → Nmea0183)
    (s : NMEAFile) (buffer : String) : NMEAFile × Option String :=
  let buffer := stripNewline buffer
  if 0 < buffer.length then
    match parse buffer with
    | some nmea_base =>
      if filtersPass s nmea_base then
        let s' := { s with
          most_recent_timestamp :=
            clockStep (classify nmea_base) s.most_recent_timestamp }
        if s.start_timestamp ≤ s'.most_recent_timestamp ∧
            s'.most_recent_timestamp ≤ s.end_timestamp then
          (s', some buffer)
        else
          (s', none)
      else (s, none)
    | none => (s, none)
  else (s, none)

/-! ## The stream loop's stdout trace -/

/-- One line written to stdout during a run. -/
inductive OutputEvent where
  | initLine (l : String)
  | startupBanner (start stop : Nat)
  | emitted (line : String)
  deriving DecidableEq, Repr

/-- The emitted-line events produced by `NMEAFile::process`'s read loop on
a finite input (the `terminate_eof = true` behaviour): each line goes
through `process_line`, whose `println!` output is recorded in order. -/
def emitLines (parse : String → Option NmeaBase) (classify : NmeaBase → Nmea0183) :
    NMEAFile → List String → List OutputEvent
  | _, [] => []
  | s, line :: rest =>
    match process_line parse classify s line with
    | (s', some out) => .emitted out :: emitLines parse classify s' rest
    | (s', none) => emitLines parse classify s' rest

/-- The whole stdout trace of a run reading from stdin: `NMEAFile::new`
first writes each `--init` line (when configured) to stdout, then
unconditionally executes
`println!("Start time {:?} End time {:?}", ...)` — also to stdout — and
then the loop's emissions follow. -/
def runOutput (init : List String) (parse : String → Option NmeaBase)
    (classify : NmeaBase → Nmea0183) (s : NMEAFile) (input : List String) :
    List OutputEvent :=
  init.map OutputEvent.initLine ++
    OutputEvent.startupBanner s.start_timestamp s.end_timestamp ::
      emitLines parse classify s input

/-! ## The default configuration and the sample scenario -/

/-- The engine state produced by `NMEAFile::new` with no filter and no
window options: window `[2000-01-01T00:00:00Z, 2050-12-31T23:59:59Z]`,
include matchers compiled from `[".*"]` (match everything, see
`isMatch_dotStar`), exclude matchers compiled from `["^$"]` (match only the
empty string, see `isMatch_anchorPair`), and the clock seeded to the
current date at midnight (`seed`, a parameter here since `Utc::now()` is
read from the environment). -/
def defaultState (seed : Nat) : NMEAFile where
  start_timestamp := defaultStart
  end_timestamp := defaultEnd
  include_devices := fun _ => true
  exclude_devices := fun s => s = ""
  include_messages := fun _ => true
  exclude_messages := fun s => s = ""
  most_recent_timestamp := seed

/-- The sample RMC sentence of the specification's scenario. -/
def sampleLine : String :=
  "$GPRMC,123519,A,4807.038,N,01131.000,E,022.4,084.4,230394,003.1,W*6A"

/-- `1994-03-23T12:35:19Z` (RMC fields `123519` UTC and `230394`
dd/mm/yy), the timestamp the sample line carries. -/
def rmcTimestamp : Nat := utcSeconds 1994 3 23 12 35 19

/-- Modelled from the spec: the external `libnmea0183` parser is out of
scope of the source (§1); on the scenario's sample line it yields sender
`"GP"`, message `"RMC"` (the `$GPRMC` talker/type split), and parses
nothing else. -/
def sampleParse : String → Option NmeaBase := fun s =>
  if s = sampleLine then some ⟨"GP", "RMC"⟩ else none

/-- Modelled from the spec: `libnmea0183::classify` on the sample line's
base yields the `RMC` variant whose `timestamp()` is
`1994-03-23T12:35:19Z`. -/
def sampleClassify : NmeaBase → Nmea0183 := fun b =>
  if b = ⟨"GP", "RMC"⟩ then .RMC rmcTimestamp else .other

/-! ## Small concrete fixtures used by the witnesses -/

/-- A one-sentence parser: the line `"w"` is the base `⟨"GP", "RMC"⟩`. -/
def wParse : String → Option NmeaBase := fun s =>
  if s = "w" then some ⟨"GP", "RMC"⟩ else none

/-- A classifier sending every base to `RMC 5`. -/
def wClassify : NmeaBase → Nmea0183 := fun _ => .RMC 5

/-- Window `[0, 10]`, all-pass matchers, clock 7 (later than the RMC
timestamp 5 of `wClassify`). -/
def wState : NMEAFile where
  start_timestamp := 0
  end_timestamp := 10
  include_devices := fun _ => true
  exclude_devices := fun _ => false
  include_messages := fun _ => true
  exclude_messages := fun _ => false
  most_recent_timestamp := 7

/-- `wState` with the degenerate window `[5, 5]`, hitting both bounds. -/
def wStateBoundary : NMEAFile :=
  { wState with start_timestamp := 5, end_timestamp := 5 }

/-- `wState` with a device-exclude matcher that matches everything. -/
def wStateExcluding : NMEAFile :=
  { wState with exclude_devices := fun _ => true }

/-! ## Regex lemmas -/

theorem isMatch_alt {a b : Regex} {s : String} :
    isMatch (.alt a b) s ↔ isMatch a s ∨ isMatch b s := by
  constructor
  · rintro ⟨i, j, h⟩
    cases h with
    | altL _ _ _ _ h => exact Or.inl ⟨i, j, h⟩
    | altR _ _ _ _ h => exact Or.inr ⟨i, j, h⟩
  · rintro (⟨i, j, h⟩ | ⟨i, j, h⟩)
    · exact ⟨i, j, .altL _ _ _ _ h⟩
    · exact ⟨i, j, .altR _ _ _ _ h⟩

theorem isMatch_group {a : Regex} {s : String} :
    isMatch (.group a) s ↔ isMatch a s := by
  constructor
  · rintro ⟨i, j, h⟩
    cases h with
    | group _ _ _ h => exact ⟨i, j, h⟩
  · rintro ⟨i, j, h⟩
    exact ⟨i, j, .group _ _ _ h⟩

theorem isMatch_foldl_alt (rs : List Regex) (r : Regex) (s : String) :
    isMatch (rs.foldl Regex.alt r) s ↔ isMatch r s ∨ ∃ p ∈ rs, isMatch p s := by
  induction rs generalizing r with
  | nil => simp
  | cons q rs ih =>
    simp only [List.foldl_cons, ih, isMatch_alt, List.mem_cons]
    constructor
    · rintro ((h | h) | ⟨p, hp, h⟩)
      · exact Or.inl h
      · exact Or.inr ⟨q, Or.inl rfl, h⟩
      · exact Or.inr ⟨p, Or.inr hp, h⟩
    · rintro (h | ⟨p, (rfl | hp), h⟩)
      · exact Or.inl (Or.inl h)
      · exact Or.inl (Or.inr h)
      · exact Or.inr ⟨p, hp, h⟩

/-- The empty pattern matches every haystack (it finds the empty span). -/
theorem isMatch_eps (s : String) : isMatch .eps s := ⟨0, 0, .eps 0⟩

/-- `.*` matches every haystack under unanchored search (the empty span
already witnesses a match). -/
theorem isMatch_dotStar (s : String) : isMatch (.star .dot) s :=
  ⟨0, 0, .starNil 0 .dot⟩

theorem spans_anchorEnd {s : List Char} {i j : Nat}
    (h : Spans s .anchorEnd i j) : i = s.length ∧ j = s.length := by
  cases h
  exact ⟨rfl, rfl⟩

/-- `^$` (with multi-line mode off) matches only the empty haystack. -/
theorem isMatch_anchorPair (s : String) :
    isMatch (.cat .anchorStart .anchorEnd) s ↔ s = "" := by
  constructor
  · rintro ⟨i, j, h⟩
    cases h with
    | cat _ k _ _ _ h₁ h₂ =>
      cases h₁
      obtain ⟨hk, -⟩ := spans_anchorEnd h₂
      cases s with
      | mk data =>
        simp only [String.data] at hk
        have : data = [] := by
          cases data with
          | nil => rfl
          | cons a as => simp at hk
        simp [this]
  · rintro rfl
    exact ⟨0, 0, .cat 0 0 0 _ _ .anchorStart
      (show Spans [] .anchorEnd 0 0 from .anchorEnd)⟩

example : daysFromCivil 1970 1 1 = 0 := by decide
example : defaultStart = 946684800 := by decide
example : rmcTimestamp = 764426119 := by decide

/-! ## Clock lemmas -/

theorem update_time_only_eq (mrt t : Nat) :
    update_time_only mrt t =
      (if t < mrt % 86400 then mrt / 86400 + 1 else mrt / 86400) * 86400 + t := rfl

theorem update_time_only_mod (mrt t : Nat) (ht : t < 86400) :
    update_time_only mrt t % 86400 = t := by
  rw [update_time_only_eq]
  split <;> omega

theorem update_time_only_div (mrt t : Nat) (ht : t < 86400) :
    update_time_only mrt t / 86400 =
      if t < mrt % 86400 then mrt / 86400 + 1 else mrt / 86400 := by
  rw [update_time_only_eq]
  split <;> omega

/-- Folding `update_time_only` over times that start above the clock's
current time-of-day and keep strictly increasing never changes the date
component. -/
theorem foldl_update_time_only_div (ts : List Nat) :
    ∀ mrt : Nat, (∀ u ∈ ts, u < 86400) →
      List.Chain' (· < ·) (mrt % 86400 :: ts) →
      ts.foldl update_time_only mrt / 86400 = mrt / 86400 := by
  induction ts with
  | nil => intro mrt _ _; rfl
  | cons u ts ih =>
    intro mrt hbound hchain
    rw [List.chain'_cons] at hchain
    have hu : u < 86400 := hbound u (List.mem_cons_self u ts)
    have hdiv : update_time_only mrt u / 86400 = mrt / 86400 := by
      rw [update_time_only_div mrt u hu, if_neg (by omega)]
    have hmod : update_time_only mrt u % 86400 = u := update_time_only_mod mrt u hu
    rw [List.foldl_cons, ih (update_time_only mrt u)
      (fun v hv => hbound v (List.mem_cons_of_mem u hv))
      (by rw [hmod]; exact hchain.2), hdiv]

/-! ## `process_line` shape lemmas -/

theorem filtersPass_iff (s : NMEAFile) (nb : NmeaBase) :
    filtersPass s nb = true ↔
      s.include_messages nb.message = true ∧ s.exclude_messages nb.message = false ∧
        s.include_devices nb.sender = true ∧ s.exclude_devices nb.sender = false := by
  simp only [filtersPass, Bool.and_eq_true, Bool.not_eq_true']
  tauto

theorem process_line_empty (parse : String → Option NmeaBase)
    (classify : NmeaBase → Nmea0183) (s : NMEAFile) (buffer : String)
    (h : ¬ 0 < (stripNewline buffer).length) :
    process_line parse classify s buffer = (s, none) := by
  simp only [process_line]
  rw [if_neg h]

theorem process_line_parse_none (parse : String → Option NmeaBase)
    (classify : NmeaBase → Nmea0183) (s : NMEAFile) (buffer : String)
    (hp : parse (stripNewline buffer) = none) :
    process_line parse classify s buffer = (s, none) := by
  simp only [process_line, hp]
  split <;> rfl

theorem process_line_reject (parse : String → Option NmeaBase)
    (classify : NmeaBase → Nmea0183) (s : NMEAFile) (buffer : String)
    (nb : NmeaBase) (hp : parse (stripNewline buffer) = some nb)
    (hf : filtersPass s nb = false) :
    process_line parse classify s buffer = (s, none) := by
  simp only [process_line, hp, hf]
  split <;> rfl

theorem process_line_pass (parse : String → Option NmeaBase)
    (classify : NmeaBase → Nmea0183) (s : NMEAFile) (buffer : String)
    (nb : NmeaBase) (hlen : 0 < (stripNewline buffer).length)
    (hp : parse (stripNewline buffer) = some nb)
    (hf : filtersPass s nb = true) :
    process_line parse classify s buffer =
      ({ s with most_recent_timestamp :=
          clockStep (classify nb) s.most_recent_timestamp },
        if s.start_timestamp ≤ clockStep (classify nb) s.most_recent_timestamp ∧
            clockStep (classify nb) s.most_recent_timestamp ≤ s.end_timestamp
          then some (stripNewline buffer) else none) := by
  simp only [process_line, hp, hf, if_pos hlen, if_true]
  split <;> rfl

theorem process_line_emission (parse : String → Option NmeaBase)
    (classify : NmeaBase → Nmea0183) (s : NMEAFile) (buffer out : String)
    (h : (process_line parse classify s buffer).2 = some out) :
    out = stripNewline buffer := by
  by_cases hlen : 0 < (stripNewline buffer).length
  · cases hp : parse (stripNewline buffer) with
    | none => rw [process_line_parse_none parse classify s buffer hp] at h; cases h
    | some nb =>
      cases hf : filtersPass s nb with
      | false => rw [process_line_reject parse classify s buffer nb hp hf] at h; cases h
      | true =>
        rw [process_line_pass parse classify s buffer nb hlen hp hf] at h
        dsimp only at h
        split at h
        · exact (Option.some.inj h).symm
        · cases h
  · rw [process_line_empty parse classify s buffer hlen] at h; cases h

theorem emitLines_mem (parse : String → Option NmeaBase)
    (classify : NmeaBase → Nmea0183) (input : List String) :
    ∀ s : NMEAFile, ∀ e ∈ emitLines parse classify s input,
      ∃ l ∈ input, e = .emitted (stripNewline l) := by
  induction input with
  | nil => intro s e he; simp [emitLines] at he
  | cons line rest ih =>
    intro s e he
    rw [emitLines] at he
    rcases hres : process_line parse classify s line with ⟨s', o⟩
    rw [hres] at he
    cases o with
    | some out =>
      rcases List.mem_cons.mp he with rfl | he
      · refine ⟨line, List.mem_cons_self _ _, ?_⟩
        rw [process_line_emission parse classify s line out (by rw [hres])]
      · obtain ⟨l, hl, rfl⟩ := ih s' e he
        exact ⟨l, List.mem_cons_of_mem _ hl, rfl⟩
    | none =>
      obtain ⟨l, hl, rfl⟩ := ih s' e he
      exact ⟨l, List.mem_cons_of_mem _ hl, rfl⟩

/-! ## Claims -/

/-- **C1 (amended).**  With no device/message filters configured, processing
the sample RMC line sets the clock to the absolute timestamp
`1994-03-23T12:35:19Z`, but the line is *not* emitted: the default window
runs from `2000-01-01T00:00:00Z` to `2050-12-31T23:59:59Z`, and the derived
clock value lies before its start, so the default window does exclude
sentences by time. -/
theorem sampleScenario_clock_set_not_emitted (seed : Nat) :
    (process_line sampleParse sampleClassify (defaultState seed)
        (sampleLine ++ "\n")).1.most_recent_timestamp = rmcTimestamp ∧
    (process_line sampleParse sampleClassify (defaultState seed)
        (sampleLine ++ "\n")).2 = none ∧
    rmcTimestamp < defaultStart := by
  have hstrip : stripNewline (sampleLine ++ "\n") = sampleLine := by decide
  have hp : sampleParse (stripNewline (sampleLine ++ "\n")) = some ⟨"GP", "RMC"⟩ := by
    rw [hstrip]; decide
  have hlen : 0 < (stripNewline (sampleLine ++ "\n")).length := by
    rw [hstrip]; decide
  have hf : filtersPass (defaultState seed) ⟨"GP", "RMC"⟩ = true := rfl
  have hpl := process_line_pass sampleParse sampleClassify (defaultState seed)
    (sampleLine ++ "\n") ⟨"GP", "RMC"⟩ hlen hp hf
  have hclass : sampleClassify ⟨"GP", "RMC"⟩ = .RMC rmcTimestamp := by decide
  rw [hclass] at hpl
  have hclock : clockStep (.RMC rmcTimestamp) (defaultState seed).most_recent_timestamp =
      rmcTimestamp := rfl
  rw [hclock, hstrip] at hpl
  have hw : ¬ ((defaultState seed).start_timestamp ≤ rmcTimestamp ∧
      rmcTimestamp ≤ (defaultState seed).end_timestamp) := by
    show ¬ (defaultStart ≤ rmcTimestamp ∧ rmcTimestamp ≤ defaultEnd)
    decide
  rw [if_neg hw] at hpl
  rw [hpl]
  exact ⟨rfl, rfl, by decide⟩

/-- **C1 (counterexample).**  The claim asserts the sample line is emitted
unchanged under the default (unconfigured) window; in fact `process_line`
emits nothing for it, whatever the seeded clock (here: seeded to
2024-06-01 at midnight). -/
theorem sampleScenario_counterexample :
    ¬ (process_line sampleParse sampleClassify
        (defaultState (86400 * daysFromCivil 2024 6 1))
        (sampleLine ++ "\n")).2 = some sampleLine := by
  decide

/-- **C2 (amended).**  On the include axes an explicitly configured empty
pattern list and an unconfigured axis do behave identically: both compiled
matchers match every string.  On the exclude axes they differ: the
unconfigured default `["^$"]` matches only the empty string (so it excludes
no non-empty sender/message token), while an explicitly empty list compiles
the empty pattern, which matches every string (so it excludes
everything). -/
theorem axisMatcher_empty_vs_unconfigured (s : String) :
    isMatch (axisMatcher (some []) includeDefault) s ∧
    isMatch (axisMatcher none includeDefault) s ∧
    isMatch (axisMatcher (some []) excludeDefault) s ∧
    (isMatch (axisMatcher none excludeDefault) s ↔ s = "") :=
  ⟨isMatch_eps s, isMatch_group.mpr (isMatch_dotStar s), isMatch_eps s,
    isMatch_group.trans (isMatch_anchorPair s)⟩

/-- **C2 (counterexample).**  On the device-exclude axis, an explicitly
configured empty pattern list does not behave like the unconfigured
default: the empty list's matcher matches the sender `"GP"`, the default
`["^$"]` does not. -/
theorem axisMatcher_empty_exclude_counterexample :
    isMatch (axisMatcher (some []) excludeDefault) "GP" ∧
    ¬ isMatch (axisMatcher none excludeDefault) "GP" :=
  ⟨isMatch_eps "GP", fun h => by
    have : ("GP" : String) = "" := (isMatch_group.trans (isMatch_anchorPair "GP")).mp h
    exact absurd this (by decide)⟩

/-- **C3.**  `update_time_only` sets the clock to the combination of the new
time-of-day `t` with the prior date advanced by exactly one day when the
prior time-of-day is strictly greater than `t` and unchanged otherwise;
consequently a strictly increasing sequence of further time-of-day updates
never changes the date component, and the first time value smaller than its
immediate predecessor increments the date by exactly one. -/
theorem update_time_only_rollover (m t : Nat) (ht : t < 86400) :
    (update_time_only m t % 86400 = t ∧
      update_time_only m t / 86400 =
        if t < m % 86400 then m / 86400 + 1 else m / 86400) ∧
    (∀ ts : List Nat, (∀ u ∈ ts, u < 86400) → List.Chain' (· < ·) (t :: ts) →
      ts.foldl update_time_only (update_time_only m t) / 86400 =
        update_time_only m t / 86400) ∧
    (∀ t', t' < t →
      update_time_only (update_time_only m t) t' / 86400 =
        update_time_only m t / 86400 + 1) := by
  refine ⟨⟨update_time_only_mod m t ht, update_time_only_div m t ht⟩, ?_, ?_⟩
  · intro ts hb hc
    exact foldl_update_time_only_div ts (update_time_only m t) hb
      (by rw [update_time_only_mod m t ht]; exact hc)
  · intro t' ht'
    rw [update_time_only_div (update_time_only m t) t' (lt_trans ht' ht),
      update_time_only_mod m t ht, if_pos ht']

/-- Witness for `update_time_only_rollover` at the clock
`222800 = 2·86400 + 50000` and time-of-day `100`. -/
theorem update_time_only_rollover_witness :
    100 < 86400 ∧
    ((update_time_only 222800 100 % 86400 = 100 ∧
      update_time_only 222800 100 / 86400 =
        if 100 < 222800 % 86400 then 222800 / 86400 + 1 else 222800 / 86400) ∧
    (∀ ts : List Nat, (∀ u ∈ ts, u < 86400) → List.Chain' (· < ·) (100 :: ts) →
      ts.foldl update_time_only (update_time_only 222800 100) / 86400 =
        update_time_only 222800 100 / 86400) ∧
    (∀ t', t' < 100 →
      update_time_only (update_time_only 222800 100) t' / 86400 =
        update_time_only 222800 100 / 86400 + 1)) :=
  ⟨by decide, update_time_only_rollover 222800 100 (by decide)⟩

/-- **C4.**  For every engine state and every admitted sentence classified
as `RMC` or `ZDA` (the full date+time messages), `process_line` replaces
the clock with the sentence's timestamp unconditionally — no rollover
heuristic, and no comparison with the previous clock value (the statement
imposes no relation between `ts` and `s.most_recent_timestamp`). -/
theorem process_line_full_overwrite (parse : String → Option NmeaBase)
    (classify : NmeaBase → Nmea0183) (s : NMEAFile) (buffer : String)
    (nb : NmeaBase) (ts : Nat)
    (hlen : 0 < (stripNewline buffer).length)
    (hp : parse (stripNewline buffer) = some nb)
    (hf : filtersPass s nb = true)
    (hc : classify nb = .RMC ts ∨ classify nb = .ZDA ts) :
    (process_line parse classify s buffer).1.most_recent_timestamp = ts := by
  rw [process_line_pass parse classify s buffer nb hlen hp hf]
  rcases hc with hc | hc <;> rw [hc] <;> split <;> rfl

/-- Witness for `process_line_full_overwrite`: an RMC timestamp 5 earlier
than the prior clock 7 still overwrites it. -/
theorem process_line_full_overwrite_witness :
    0 < (stripNewline "w\n").length ∧
    wParse (stripNewline "w\n") = some ⟨"GP", "RMC"⟩ ∧
    filtersPass wState ⟨"GP", "RMC"⟩ = true ∧
    (wClassify ⟨"GP", "RMC"⟩ = .RMC 5 ∨ wClassify ⟨"GP", "RMC"⟩ = .ZDA 5) ∧
    (process_line wParse wClassify wState "w\n").1.most_recent_timestamp = 5 :=
  ⟨by decide, by decide, by decide, Or.inl rfl,
    process_line_full_overwrite wParse wClassify wState "w\n" ⟨"GP", "RMC"⟩ 5
      (by decide) (by decide) (by decide) (Or.inl rfl)⟩

/-- **C5.**  For every admitted sentence, the line is emitted iff the
possibly-just-updated clock `c` satisfies `start ≤ c ∧ c ≤ end`, both
bounds inclusive; and the state `process_line` returns is the same record
whatever the outcome of the window test — the test mutates nothing. -/
theorem process_line_window_iff (parse : String → Option NmeaBase)
    (classify : NmeaBase → Nmea0183) (s : NMEAFile) (buffer : String)
    (nb : NmeaBase)
    (hlen : 0 < (stripNewline buffer).length)
    (hp : parse (stripNewline buffer) = some nb)
    (hf : filtersPass s nb = true) :
    ((process_line parse classify s buffer).2 = some (stripNewline buffer) ↔
      s.start_timestamp ≤ clockStep (classify nb) s.most_recent_timestamp ∧
        clockStep (classify nb) s.most_recent_timestamp ≤ s.end_timestamp) ∧
    (process_line parse classify s buffer).1 =
      { s with most_recent_timestamp :=
          clockStep (classify nb) s.most_recent_timestamp } := by
  rw [process_line_pass parse classify s buffer nb hlen hp hf]
  refine ⟨?_, rfl⟩
  constructor
  · intro h
    by_contra hcond
    rw [if_neg hcond] at h
    cases h
  · intro hcond
    rw [if_pos hcond]

/-- Witness for `process_line_window_iff` at the degenerate window
`[5, 5]`: the derived clock 5 equals both bounds and the line is
emitted. -/
theorem process_line_window_iff_witness :
    0 < (stripNewline "w\n").length ∧
    wParse (stripNewline "w\n") = some ⟨"GP", "RMC"⟩ ∧
    filtersPass wStateBoundary ⟨"GP", "RMC"⟩ = true ∧
    (((process_line wParse wClassify wStateBoundary "w\n").2 = some "w" ↔
        (5 : Nat) ≤ 5 ∧ (5 : Nat) ≤ 5) ∧
      (process_line wParse wClassify wStateBoundary "w\n").1 =
        { wStateBoundary with most_recent_timestamp := 5 }) :=
  ⟨by decide, by decide, by decide,
    process_line_window_iff wParse wClassify wStateBoundary "w\n" ⟨"GP", "RMC"⟩
      (by decide) (by decide) (by decide)⟩

/-- **C6.**  A parsed sentence is kept iff its message type matches the
message include matcher and not the message exclude matcher and its sender
matches the device include matcher and not the device exclude matcher —
both directions: when any test fails the call leaves the whole state
unchanged and emits nothing; emission implies all four tests passed; a
sender matched by the device exclude matcher is never emitted, regardless
of the include matchers or the time window; and conversely, when all four
tests pass, the sentence is admitted to clock update and window testing —
the call returns exactly the `clockStep`-updated state together with the
window test's verdict on it, so no further condition filters it. -/
theorem process_line_keep_iff (parse : String → Option NmeaBase)
    (classify : NmeaBase → Nmea0183) (s : NMEAFile) (buffer : String)
    (nb : NmeaBase)
    (hp : parse (stripNewline buffer) = some nb) :
    (¬ (s.include_messages nb.message = true ∧
          s.exclude_messages nb.message = false ∧
          s.include_devices nb.sender = true ∧
          s.exclude_devices nb.sender = false) →
        process_line parse classify s buffer = (s, none)) ∧
    ((process_line parse classify s buffer).2 ≠ none →
        s.include_messages nb.message = true ∧
          s.exclude_messages nb.message = false ∧
          s.include_devices nb.sender = true ∧
          s.exclude_devices nb.sender = false) ∧
    (s.exclude_devices nb.sender = true →
        (process_line parse classify s buffer).2 = none) ∧
    (0 < (stripNewline buffer).length →
      (s.include_messages nb.message = true ∧
          s.exclude_messages nb.message = false ∧
          s.include_devices nb.sender = true ∧
          s.exclude_devices nb.sender = false) →
        process_line parse classify s buffer =
          ({ s with most_recent_timestamp :=
              clockStep (classify nb) s.most_recent_timestamp },
            if s.start_timestamp ≤ clockStep (classify nb) s.most_recent_timestamp ∧
                clockStep (classify nb) s.most_recent_timestamp ≤ s.end_timestamp
              then some (stripNewline buffer) else none)) := by
  have hsuff : ∀ hlen : 0 < (stripNewline buffer).length,
      (s.include_messages nb.message = true ∧
        s.exclude_messages nb.message = false ∧
        s.include_devices nb.sender = true ∧
        s.exclude_devices nb.sender = false) →
      process_line parse classify s buffer =
        ({ s with most_recent_timestamp :=
            clockStep (classify nb) s.most_recent_timestamp },
          if s.start_timestamp ≤ clockStep (classify nb) s.most_recent_timestamp ∧
              clockStep (classify nb) s.most_recent_timestamp ≤ s.end_timestamp
            then some (stripNewline buffer) else none) :=
    fun hlen hconds => process_line_pass parse classify s buffer nb hlen hp
      ((filtersPass_iff s nb).mpr hconds)
  refine ⟨fun h => ?_, fun h => ?_, fun hx => ?_, hsuff⟩
  · cases hf : filtersPass s nb with
    | false => exact process_line_reject parse classify s buffer nb hp hf
    | true => exact absurd ((filtersPass_iff s nb).mp hf) h
  · cases hf : filtersPass s nb with
    | false =>
      rw [process_line_reject parse classify s buffer nb hp hf] at h
      exact absurd rfl h
    | true => exact (filtersPass_iff s nb).mp hf
  · cases hf : filtersPass s nb with
    | false => rw [process_line_reject parse classify s buffer nb hp hf]
    | true =>
      rw [((filtersPass_iff s nb).mp hf).2.2.2] at hx
      cases hx

/-- Witness for `process_line_keep_iff`: with an all-matching device
exclude matcher the sentence is dropped; with all four tests passing it is
admitted — the clock moves to 5 and the window verdict emits the line. -/
theorem process_line_keep_iff_witness :
    wParse (stripNewline "w\n") = some ⟨"GP", "RMC"⟩ ∧
    wStateExcluding.exclude_devices "GP" = true ∧
    (process_line wParse wClassify wStateExcluding "w\n").2 = none ∧
    process_line wParse wClassify wState "w\n" =
      ({ wState with most_recent_timestamp := 5 }, some "w") :=
  ⟨by decide, by decide,
    (process_line_keep_iff wParse wClassify wStateExcluding "w\n" ⟨"GP", "RMC"⟩
      (by decide)).2.2.1 (by decide),
    (process_line_keep_iff wParse wClassify wState "w\n" ⟨"GP", "RMC"⟩
      (by decide)).2.2.2 (by decide) (by decide)⟩

/-- **C7.**  Clock mutation is framed by the device/message filter, not by
the window: a sentence rejected on either filter axis leaves the whole
state — in particular the clock — unchanged, while an admitted sentence
always lands the clock on `clockStep` of its classification, an expression
independent of the window bounds, so the update happens even when the
resulting value lies outside the window and nothing is emitted. -/
theorem process_line_clock_frame (parse : String → Option NmeaBase)
    (classify : NmeaBase → Nmea0183) (s : NMEAFile) (buffer : String)
    (nb : NmeaBase)
    (hp : parse (stripNewline buffer) = some nb) :
    (filtersPass s nb = false →
      (process_line parse classify s buffer).1 = s) ∧
    (0 < (stripNewline buffer).length → filtersPass s nb = true →
      (process_line parse classify s buffer).1.most_recent_timestamp =
        clockStep (classify nb) s.most_recent_timestamp) := by
  constructor
  · intro hf
    by_cases hlen : 0 < (stripNewline buffer).length
    · rw [process_line_reject parse classify s buffer nb hp hf]
    · rw [process_line_empty parse classify s buffer hlen]
  · intro hlen hf
    rw [process_line_pass parse classify s buffer nb hlen hp hf]

/-- Witness for `process_line_clock_frame`: a device-excluded sentence
leaves the state untouched; the same sentence against an all-pass filter
moves the clock to 5 (the window playing no role in the value). -/
theorem process_line_clock_frame_witness :
    wParse (stripNewline "w\n") = some ⟨"GP", "RMC"⟩ ∧
    filtersPass wStateExcluding ⟨"GP", "RMC"⟩ = false ∧
    (process_line wParse wClassify wStateExcluding "w\n").1 = wStateExcluding ∧
    (process_line wParse wClassify wState "w\n").1.most_recent_timestamp =
      clockStep (wClassify ⟨"GP", "RMC"⟩) wState.most_recent_timestamp :=
  ⟨by decide, by decide,
    (process_line_clock_frame wParse wClassify wStateExcluding "w\n" ⟨"GP", "RMC"⟩
      (by decide)).1 (by decide),
    (process_line_clock_frame wParse wClassify wState "w\n" ⟨"GP", "RMC"⟩
      (by decide)).2 (by decide) (by decide)⟩

/-- **C8.**  Exactly one trailing newline is stripped when present (and
nothing otherwise), and a line that is then empty or that the external
parser rejects is dropped silently: `process_line` returns the unchanged
state and no emission — it is a total function, so no error is raised or
propagated, whatever the line's content. -/
theorem process_line_strip_and_silent_drop (parse : String → Option NmeaBase)
    (classify : NmeaBase → Nmea0183) (s : NMEAFile) (buffer : String) :
    (buffer.data.getLast? = some '\n' →
      (stripNewline buffer).data = buffer.data.dropLast) ∧
    (¬ buffer.data.getLast? = some '\n' → stripNewline buffer = buffer) ∧
    (stripNewline buffer = "" →
      process_line parse classify s buffer = (s, none)) ∧
    (parse (stripNewline buffer) = none →
      process_line parse classify s buffer = (s, none)) := by
  refine ⟨fun h => ?_, fun h => ?_, fun h => ?_, fun h => ?_⟩
  · rw [stripNewline, if_pos h]
  · rw [stripNewline, if_neg h]
  · refine process_line_empty parse classify s buffer ?_
    rw [h]
    decide
  · exact process_line_parse_none parse classify s buffer h
/-- Witness for `process_line_strip_and_silent_drop`: `"ab\n"` is stripped
to `"ab"`, `"ab"` stays as is, the bare newline line is dropped with the
state unchanged, and so is the unparseable `"zz\n"`. -/
theorem process_line_strip_and_silent_drop_witness :
    (stripNewline "ab\n").data = "ab\n".data.dropLast ∧
    stripNewline "ab" = "ab" ∧
    process_line wParse wClassify wState "\n" = (wState, none) ∧
    process_line wParse wClassify wState "zz\n" = (wState, none) :=
  ⟨(process_line_strip_and_silent_drop wParse wClassify wState "ab\n").1
      (by decide),
    (process_line_strip_and_silent_drop wParse wClassify wState "ab").2.1
      (by decide),
    (process_line_strip_and_silent_drop wParse wClassify wState "\n").2.2.1
      (by decide),
    (process_line_strip_and_silent_drop wParse wClassify wState "zz\n").2.2.2
      (by decide)⟩

/-- **C9 (amended).**  The stdout trace of a run is the configured `--init`
lines, then the startup `Start time … End time …` banner that
`NMEAFile::new` prints unconditionally, then the emitted lines; every
emitted event carries the newline-stripped text of one of the input lines,
in input arrival order. -/
theorem runOutput_decomposition (init input : List String)
    (parse : String → Option NmeaBase) (classify : NmeaBase → Nmea0183)
    (s : NMEAFile) :
    runOutput init parse classify s input =
      init.map OutputEvent.initLine ++
        OutputEvent.startupBanner s.start_timestamp s.end_timestamp ::
          emitLines parse classify s input ∧
    ∀ e ∈ emitLines parse classify s input,
      ∃ l ∈ input, e = .emitted (stripNewline l) :=
  ⟨rfl, emitLines_mem parse classify input s⟩

/-- **C9 (counterexample).**  The bytes written to the output stream are
not only the emitted lines: even on empty input the run writes the startup
banner to stdout. -/
theorem runOutput_banner_counterexample :
    ¬ ∀ e ∈ runOutput [] sampleParse sampleClassify (defaultState 0) [],
        ∃ l, e = OutputEvent.emitted l := by
  intro h
  obtain ⟨l, hl⟩ := h (.startupBanner defaultStart defaultEnd)
    (by simp [runOutput, emitLines, defaultState])
  cases hl

/-- **C10 (amended).**  For every *non-empty* list of patterns, the single
matcher `create_regex` builds by alternation of the parenthesised patterns
matches a string iff at least one pattern of the list matches it
individually.  (The empty list is the exception, see the
counterexample.) -/
theorem create_regex_alternation_equiv (ps : List Regex) (h : ps ≠ [])
    (s : String) :
    isMatch (create_regex (some ps)) s ↔ ∃ p ∈ ps, isMatch p s := by
  cases ps with
  | nil => exact absurd rfl h
  | cons p ps =>
    rw [create_regex, isMatch_foldl_alt, isMatch_group]
    constructor
    · rintro (hm | ⟨q, hq, hm⟩)
      · exact ⟨p, List.mem_cons_self _ _, hm⟩
      · obtain ⟨q', hq', rfl⟩ := List.mem_map.mp hq
        exact ⟨q', List.mem_cons_of_mem _ hq', isMatch_group.mp hm⟩
    · rintro ⟨q, hq, hm⟩
      rcases List.mem_cons.mp hq with rfl | hq
      · exact Or.inl hm
      · exact Or.inr ⟨.group q, List.mem_map_of_mem _ hq, isMatch_group.mpr hm⟩

/-- Witness for `create_regex_alternation_equiv` on the one-pattern list
`["()"]` and the haystack `"x"`. -/
theorem create_regex_alternation_equiv_witness :
    ([Regex.eps] ≠ []) ∧
    (isMatch (create_regex (some [Regex.eps])) "x" ↔
      ∃ p ∈ [Regex.eps], isMatch p "x") :=
  ⟨by decide, create_regex_alternation_equiv [Regex.eps] (by decide) "x"⟩

/-- **C10 (counterexample).**  On the empty pattern list the construction
is not equivalent to "some pattern matches": `create_regex` concatenates
nothing, compiles the empty pattern, and the resulting matcher matches
`"GP"` (indeed everything), while no pattern of the empty list does. -/
theorem create_regex_empty_list_counterexample :
    isMatch (create_regex (some [])) "GP" ∧
    ¬ ∃ p ∈ ([] : List Regex), isMatch p "GP" :=
  ⟨isMatch_eps "GP", by rintro ⟨p, hp, -⟩; cases hp⟩

/-- Witness for `sampleScenario_clock_set_not_emitted` at seed 0. -/
theorem sampleScenario_clock_set_not_emitted_witness :
    (process_line sampleParse sampleClassify (defaultState 0)
        (sampleLine ++ "\n")).1.most_recent_timestamp = rmcTimestamp ∧
    (process_line sampleParse sampleClassify (defaultState 0)
        (sampleLine ++ "\n")).2 = none ∧
    rmcTimestamp < defaultStart :=
  sampleScenario_clock_set_not_emitted 0

/-- Witness for `axisMatcher_empty_vs_unconfigured` at the sender `"GP"`. -/
theorem axisMatcher_empty_vs_unconfigured_witness :
    isMatch (axisMatcher (some []) includeDefault) "GP" ∧
    isMatch (axisMatcher none includeDefault) "GP" ∧
    isMatch (axisMatcher (some []) excludeDefault) "GP" ∧
    (isMatch (axisMatcher none excludeDefault) "GP" ↔ "GP" = "") :=
  axisMatcher_empty_vs_unconfigured "GP"

/-- Witness for `runOutput_decomposition` on a one-init, one-line run. -/
theorem runOutput_decomposition_witness :
    runOutput ["i"] wParse wClassify wState ["w\n"] =
      [OutputEvent.initLine "i",
        OutputEvent.startupBanner wState.start_timestamp wState.end_timestamp] ++
        emitLines wParse wClassify wState ["w\n"] ∧
    ∀ e ∈ emitLines wParse wClassify wState ["w\n"],
      ∃ l ∈ ["w\n"], e = OutputEvent.emitted (stripNewline l) :=
  runOutput_decomposition ["i"] ["w\n"] wParse wClassify wState
